import Mathlib

/-!
# Video call backend: configuration loader and room handlers

A shallow embedding of `backend/config/config.go`, `backend/handlers/room.go`
and the route registrations of `backend/main.go`.

* The process environment is an explicit argument of `Load`.
* The two library calls whose results the handler branches on, fiber's
  `BodyParser` and the LiveKit `AccessToken.ToJWT`, are arguments (`Libs`).
  `ToJWT` reads the clock, so it also receives the time of the call.
* A handler returns its HTTP response, the handler value after the call, and
  the list of calls it made into the LiveKit `auth` package.
-/

namespace VideoCall

/-! ## config/config.go -/

/-- The process environment: `none` for a variable that is not set. -/
abbrev Env := String → Option String

/-- Go `os.Getenv`: the value of the variable, the empty string when the
variable is not present. -/
def Getenv (env : Env) (key : String) : String :=
  (env key).getD ""

/-- Go `type Config struct`. -/
structure Config where
  LiveKitHost : String
  LiveKitAPIKey : String
  LiveKitAPISecret : String
  Port : String
  deriving DecidableEq, Repr

/-- Go `func getEnv(key, defaultValue string) string`. -/
def getEnv (env : Env) (key defaultValue : String) : String :=
  let value := Getenv env key
  if value ≠ "" then value else defaultValue

/-- Go `func Load() *Config`. -/
def Load (env : Env) : Config :=
  { LiveKitHost := getEnv env "LIVEKIT_HOST" "ws://localhost:7880"
    LiveKitAPIKey := getEnv env "LIVEKIT_API_KEY" "devkey"
    LiveKitAPISecret := getEnv env "LIVEKIT_API_SECRET" "secret"
    Port := getEnv env "PORT" "8080" }

/-! ## Values of the `time` and `auth` packages used by the handler -/

/-- Go `time.Duration`: a count of nanoseconds. -/
abbrev Duration := Int

def Nanosecond : Duration := 1
def Microsecond : Duration := 1000 * Nanosecond
def Millisecond : Duration := 1000 * Microsecond
def Second : Duration := 1000 * Millisecond
def Minute : Duration := 60 * Second
def Hour : Duration := 60 * Minute

/-- A reading of the clock (`time.Now()`), in nanoseconds since the epoch. -/
abbrev Time := Int

/-- The LiveKit `auth.VideoGrant`. A Go composite literal leaves every field
it does not name at its zero value: `false`, `""`, a nil pointer (`none`) or a
nil slice (`[]`). -/
structure VideoGrant where
  RoomCreate : Bool := false
  RoomList : Bool := false
  RoomRecord : Bool := false
  RoomAdmin : Bool := false
  RoomJoin : Bool := false
  Room : String := ""
  CanPublish : Option Bool := none
  CanSubscribe : Option Bool := none
  CanPublishData : Option Bool := none
  CanPublishSources : List String := []
  CanUpdateOwnMetadata : Option Bool := none
  IngressAdmin : Bool := false
  Hidden : Bool := false
  Recorder : Bool := false
  deriving DecidableEq, Repr

/-- The LiveKit `auth.ClaimGrants`: the identity and the optional video
grant of an access token. -/
structure ClaimGrants where
  Identity : String := ""
  Video : Option VideoGrant := none
  deriving DecidableEq, Repr

/-- The LiveKit `auth.AccessToken` builder value. -/
structure AccessToken where
  apiKey : String
  secret : String
  grant : ClaimGrants := {}
  validFor : Duration := 0
  deriving DecidableEq, Repr

/-- The call `auth.NewAccessToken(key, secret)`. -/
def NewAccessToken (key secret : String) : AccessToken :=
  { apiKey := key, secret := secret }

/-- The call `at.AddGrant(grant)`. -/
def AccessToken.AddGrant (t : AccessToken) (g : VideoGrant) : AccessToken :=
  { t with grant := { t.grant with Video := some g } }

/-- The call `at.SetIdentity(identity)`. -/
def AccessToken.SetIdentity (t : AccessToken) (identity : String) : AccessToken :=
  { t with grant := { t.grant with Identity := identity } }

/-- The call `at.SetValidFor(duration)`. -/
def AccessToken.SetValidFor (t : AccessToken) (d : Duration) : AccessToken :=
  { t with validFor := d }

/-! ## Values of the `fiber` package used by the handlers -/

def StatusOK : Nat := 200
def StatusBadRequest : Nat := 400
def StatusInternalServerError : Nat := 500

/-- A JSON value as it appears in the response bodies of this program. -/
inductive JValue where
  | null
  | string (s : String)
  | strings (xs : List String)
  deriving DecidableEq, Repr

/-- A JSON object: its keys with their values. -/
abbrev JObject := List (String × JValue)

/-- JSON encoding of a Go `[]string`: a nil slice (`none`) encodes as `null`,
a non-nil slice as an array. -/
def encodeStrings : Option (List String) → JValue
  | none => .null
  | some xs => .strings xs

/-- What the handler reads of a request (`*fiber.Ctx`). -/
structure Ctx where
  contentType : String
  body : String
  deriving DecidableEq, Repr

/-- The response held by a `*fiber.Ctx`. -/
structure Response where
  status : Nat
  body : JObject
  deriving DecidableEq, Repr

/-- The response of a fresh context: status 200, nothing written. -/
def Response.fresh : Response :=
  { status := StatusOK, body := [] }

/-- The call `c.Status(code)`. -/
def Response.Status (r : Response) (code : Nat) : Response :=
  { r with status := code }

/-- The call `c.JSON(v)` for a value `v` that encodes to the object `o`. -/
def Response.JSON (r : Response) (o : JObject) : Response :=
  { r with body := o }

/-! ## handlers/room.go -/

/-- Go `type RoomHandler struct`. -/
structure RoomHandler where
  config : Config
  deriving DecidableEq, Repr

/-- Go `func NewRoomHandler(cfg *config.Config) *RoomHandler`. -/
def NewRoomHandler (cfg : Config) : RoomHandler :=
  { config := cfg }

/-- Go `type TokenRequest struct`; `{}` is its zero value, the value of
`var req TokenRequest`. -/
structure TokenRequest where
  RoomName : String := ""
  ParticipantName : String := ""
  deriving DecidableEq, Repr

/-- Go `type TokenResponse struct`. -/
structure TokenResponse where
  Token : String
  deriving DecidableEq, Repr

/-- JSON encoding of a `TokenResponse`, by its field tag. -/
def TokenResponse.encode (r : TokenResponse) : JObject :=
  [("token", .string r.Token)]

/-- The library functions the handler calls and branches on. `BodyParser c req`
decodes the body of `c` into `req` and returns the value it leaves in `req`, or
an error. `ToJWT tok now` signs `tok` at clock reading `now`. -/
structure Libs where
  BodyParser : Ctx → TokenRequest → Except String TokenRequest
  ToJWT : AccessToken → Time → Except String String

/-- A call into the `auth` package made by a handler. -/
inductive AuthCall where
  | NewAccessToken (key secret : String)
  | ToJWT (tok : AccessToken) (now : Time)
  deriving DecidableEq, Repr

/-- The result of running a handler. -/
structure Outcome where
  response : Response
  handler : RoomHandler
  calls : List AuthCall
  deriving DecidableEq, Repr

/-- Go `func (h *RoomHandler) GenerateToken(c *fiber.Ctx) error`. -/
def GenerateToken (L : Libs) (h : RoomHandler) (now : Time) (c : Ctx) : Outcome :=
  match L.BodyParser c {} with
  | .error _ =>
    { response := (Response.fresh.Status StatusBadRequest).JSON
        [("error", .string "Invalid request body")]
      handler := h
      calls := [] }
  | .ok req =>
    if req.RoomName = "" ∨ req.ParticipantName = "" then
      { response := (Response.fresh.Status StatusBadRequest).JSON
          [("error", .string "roomName and participantName are required")]
        handler := h
        calls := [] }
    else
      let tok0 := NewAccessToken h.config.LiveKitAPIKey h.config.LiveKitAPISecret
      let grant : VideoGrant := { RoomJoin := true, Room := req.RoomName }
      let tok := ((tok0.AddGrant grant).SetIdentity req.ParticipantName).SetValidFor (Hour * 24)
      let calls := [AuthCall.NewAccessToken h.config.LiveKitAPIKey h.config.LiveKitAPISecret,
        AuthCall.ToJWT tok now]
      match L.ToJWT tok now with
      | .error _ =>
        { response := (Response.fresh.Status StatusInternalServerError).JSON
            [("error", .string "Failed to generate token")]
          handler := h
          calls := calls }
      | .ok token =>
        { response := Response.fresh.JSON (TokenResponse.encode { Token := token })
          handler := h
          calls := calls }

/-- Go `func (h *RoomHandler) GetRooms(c *fiber.Ctx) error`. -/
def GetRooms (h : RoomHandler) (_c : Ctx) : Outcome :=
  { response := Response.fresh.JSON [("rooms", encodeStrings (some []))]
    handler := h
    calls := [] }

/-! ## main.go -/

/-- The health check closure registered in `main`. -/
def healthHandler (_c : Ctx) : Response :=
  Response.fresh.JSON [("status", .string "ok")]

inductive Method where
  | GET
  | POST
  | PUT
  | DELETE
  | OPTIONS
  deriving DecidableEq, Repr

/-- The handlers `main` registers. -/
inductive Route where
  | token
  | rooms
  | health
  deriving DecidableEq, Repr

/-- The registrations made by `main`: `api.Post("/token", ...)` and
`api.Get("/rooms", ...)` under the group `/api`, and `app.Get("/health", ...)`. -/
def routes : List (Method × String × Route) :=
  [(.POST, "/api" ++ "/token", .token),
   (.GET, "/api" ++ "/rooms", .rooms),
   (.GET, "/health", .health)]

/-- The handler registered for a method and path, if any. -/
def registered (m : Method) (path : String) : Option Route :=
  (routes.find? (fun r => r.1 = m ∧ r.2.1 = path)).map (fun r => r.2.2)

/-- The state of the running process that handlers can reach: the one
`RoomHandler` built in `main`. -/
structure Server where
  roomHandler : RoomHandler
  deriving DecidableEq, Repr

/-- The server `main` builds: `NewRoomHandler(config.Load())`. -/
def Server.start (env : Env) : Server :=
  { roomHandler := NewRoomHandler (Load env) }

/-- One request dispatched to the registered handler `r`. -/
def serve (L : Libs) (s : Server) (now : Time) (r : Route) (c : Ctx) : Response × Server :=
  match r with
  | .token =>
    let o := GenerateToken L s.roomHandler now c
    (o.response, { roomHandler := o.handler })
  | .rooms =>
    let o := GetRooms s.roomHandler c
    (o.response, { roomHandler := o.handler })
  | .health => (healthHandler c, s)

/-- The server after a sequence of requests, each with its clock reading. -/
def run (L : Libs) (s : Server) : List (Time × Route × Ctx) → Server
  | [] => s
  | (now, r, c) :: rest => run L (serve L s now r c).2 rest

/-! ## Reference values used in the statements -/

/-- The access token of the token issuer contract, written out field by
field: issuer key and signing secret of the configuration, identity the
participant name, a video grant whose only permission is room join, scoped to
the room name, and a validity of 86400 seconds. -/
def specAccessToken (cfg : Config) (req : TokenRequest) : AccessToken :=
  { apiKey := cfg.LiveKitAPIKey
    secret := cfg.LiveKitAPISecret
    grant :=
      { Identity := req.ParticipantName
        Video := some
          { RoomCreate := false
            RoomList := false
            RoomRecord := false
            RoomAdmin := false
            RoomJoin := true
            Room := req.RoomName
            CanPublish := none
            CanSubscribe := none
            CanPublishData := none
            CanPublishSources := []
            CanUpdateOwnMetadata := none
            IngressAdmin := false
            Hidden := false
            Recorder := false } }
    validFor := 86400 * 1000000000 }

/-- The error body of the handlers: the single key `error` with a message. -/
def errorBody (msg : String) : JObject :=
  [("error", .string msg)]

/-! ## Sample library behaviour and inputs -/

/-- The request body of the concrete scenario. -/
def standupBody : String :=
  "\x7b\"roomName\": \"standup\", \"participantName\": \"alice\"\x7d"

/-- A request body without the participant name. -/
def roomOnlyBody : String :=
  "\x7b\"roomName\": \"standup\"\x7d"

/-- A request body whose two names are a single blank each. -/
def blankBody : String :=
  "\x7b\"roomName\": \" \", \"participantName\": \" \"\x7d"

/-- A body parser defined on the three sample bodies, where it agrees with
JSON decoding into a `TokenRequest`; every other input is an error. -/
def sampleBodyParser (c : Ctx) (req : TokenRequest) : Except String TokenRequest :=
  if c.contentType = "application/json" then
    if c.body = standupBody then
      .ok { req with RoomName := "standup", ParticipantName := "alice" }
    else if c.body = roomOnlyBody then
      .ok { req with RoomName := "standup" }
    else if c.body = blankBody then
      .ok { req with RoomName := " ", ParticipantName := " " }
    else .error "invalid JSON"
  else .error "Unprocessable Entity"

/-- A signer that refuses missing keys and otherwise returns a token text. -/
def sampleToJWT (tok : AccessToken) (_now : Time) : Except String String :=
  if tok.apiKey = "" ∨ tok.secret = "" then .error "api key and secret are required"
  else .ok ("jwt." ++ tok.apiKey ++ "." ++ tok.grant.Identity)

/-- A signer that always fails. -/
def failingToJWT (_tok : AccessToken) (_now : Time) : Except String String :=
  .error "signing failed"

def sampleLibs : Libs :=
  { BodyParser := sampleBodyParser, ToJWT := sampleToJWT }

def failingLibs : Libs :=
  { BodyParser := sampleBodyParser, ToJWT := failingToJWT }

def jsonCtx (body : String) : Ctx :=
  { contentType := "application/json", body := body }

/-- An environment with no variable set. -/
def emptyEnv : Env := fun _ => none

/-- An environment in which `LIVEKIT_HOST` is set to the empty string. -/
def emptyHostEnv : Env := fun k => if k = "LIVEKIT_HOST" then some "" else none

/-- An environment that sets all four variables. -/
def fullEnv : Env := fun k =>
  if k = "LIVEKIT_HOST" then some "wss://video.example.org"
  else if k = "LIVEKIT_API_KEY" then some "APIabc"
  else if k = "LIVEKIT_API_SECRET" then some "s3cr3t"
  else if k = "PORT" then some "9000"
  else none

end VideoCall

namespace VideoCall

/-! ## The configuration loader -/

/-- What `getEnv` returns, by the state of the variable. -/
theorem getEnv_eq (env : Env) (key d : String) :
    getEnv env key d =
      match env key with
      | some v => if v = "" then d else v
      | none => d := by
  unfold getEnv Getenv
  cases h : env key with
  | none => simp
  | some v => by_cases hv : v = "" <;> simp [hv]

theorem getEnv_ne_empty (env : Env) (key d : String) (hd : d ≠ "") : getEnv env key d ≠ "" := by
  unfold getEnv
  by_cases hv : Getenv env key = ""
  · simpa [hv] using hd
  · simp [hv]

/-! ## The three ways `GenerateToken` ends -/

theorem built_token_eq (h : RoomHandler) (req : TokenRequest) :
    (((NewAccessToken h.config.LiveKitAPIKey h.config.LiveKitAPISecret).AddGrant
      { RoomJoin := true, Room := req.RoomName }).SetIdentity req.ParticipantName).SetValidFor
        (Hour * 24) = specAccessToken h.config req := by
  have hd : Hour * 24 = 86400 * 1000000000 := by decide
  simp [NewAccessToken, AccessToken.AddGrant, AccessToken.SetIdentity, AccessToken.SetValidFor,
    specAccessToken, hd]

theorem GenerateToken_parse_error (L : Libs) (h : RoomHandler) (now : Time) (c : Ctx)
    (e : String) (hp : L.BodyParser c {} = .error e) :
    GenerateToken L h now c =
      { response := ⟨400, errorBody "Invalid request body"⟩, handler := h, calls := [] } := by
  simp [GenerateToken, hp, Response.fresh, Response.Status, Response.JSON, StatusBadRequest,
    errorBody]

theorem GenerateToken_rejected (L : Libs) (h : RoomHandler) (now : Time) (c : Ctx)
    (req : TokenRequest) (hp : L.BodyParser c {} = .ok req)
    (he : req.RoomName = "" ∨ req.ParticipantName = "") :
    GenerateToken L h now c =
      { response := ⟨400, errorBody "roomName and participantName are required"⟩
        handler := h, calls := [] } := by
  simp [GenerateToken, hp, he, Response.fresh, Response.Status, Response.JSON, StatusBadRequest,
    errorBody]

theorem GenerateToken_sign_error (L : Libs) (h : RoomHandler) (now : Time) (c : Ctx)
    (req : TokenRequest) (hp : L.BodyParser c {} = .ok req)
    (hr : req.RoomName ≠ "") (hn : req.ParticipantName ≠ "") (e : String)
    (hs : L.ToJWT (specAccessToken h.config req) now = .error e) :
    GenerateToken L h now c =
      { response := ⟨500, errorBody "Failed to generate token"⟩
        handler := h
        calls := [.NewAccessToken h.config.LiveKitAPIKey h.config.LiveKitAPISecret,
          .ToJWT (specAccessToken h.config req) now] } := by
  simp [GenerateToken, hp, hr, hn, built_token_eq, hs, Response.fresh, Response.Status,
    Response.JSON, StatusInternalServerError, errorBody]

theorem GenerateToken_sign_ok (L : Libs) (h : RoomHandler) (now : Time) (c : Ctx)
    (req : TokenRequest) (hp : L.BodyParser c {} = .ok req)
    (hr : req.RoomName ≠ "") (hn : req.ParticipantName ≠ "") (t : String)
    (hs : L.ToJWT (specAccessToken h.config req) now = .ok t) :
    GenerateToken L h now c =
      { response := ⟨200, [("token", .string t)]⟩
        handler := h
        calls := [.NewAccessToken h.config.LiveKitAPIKey h.config.LiveKitAPISecret,
          .ToJWT (specAccessToken h.config req) now] } := by
  simp [GenerateToken, hp, hr, hn, built_token_eq, hs, Response.fresh, Response.JSON,
    StatusOK, TokenResponse.encode]

/-- Every run of `GenerateToken` ends in one of four ways. -/
theorem GenerateToken_cases (L : Libs) (h : RoomHandler) (now : Time) (c : Ctx) :
    (∃ e, L.BodyParser c {} = .error e ∧
      GenerateToken L h now c =
        { response := ⟨400, errorBody "Invalid request body"⟩, handler := h, calls := [] }) ∨
    (∃ req, L.BodyParser c {} = .ok req ∧ (req.RoomName = "" ∨ req.ParticipantName = "") ∧
      GenerateToken L h now c =
        { response := ⟨400, errorBody "roomName and participantName are required"⟩
          handler := h, calls := [] }) ∨
    (∃ req e, L.BodyParser c {} = .ok req ∧ req.RoomName ≠ "" ∧ req.ParticipantName ≠ "" ∧
      L.ToJWT (specAccessToken h.config req) now = .error e ∧
      GenerateToken L h now c =
        { response := ⟨500, errorBody "Failed to generate token"⟩
          handler := h
          calls := [.NewAccessToken h.config.LiveKitAPIKey h.config.LiveKitAPISecret,
            .ToJWT (specAccessToken h.config req) now] }) ∨
    (∃ req t, L.BodyParser c {} = .ok req ∧ req.RoomName ≠ "" ∧ req.ParticipantName ≠ "" ∧
      L.ToJWT (specAccessToken h.config req) now = .ok t ∧
      GenerateToken L h now c =
        { response := ⟨200, [("token", .string t)]⟩
          handler := h
          calls := [.NewAccessToken h.config.LiveKitAPIKey h.config.LiveKitAPISecret,
            .ToJWT (specAccessToken h.config req) now] }) := by
  cases hp : L.BodyParser c {} with
  | error e => exact Or.inl ⟨e, rfl, GenerateToken_parse_error L h now c e hp⟩
  | ok req =>
    by_cases he : req.RoomName = "" ∨ req.ParticipantName = ""
    · exact Or.inr (Or.inl ⟨req, rfl, he, GenerateToken_rejected L h now c req hp he⟩)
    · have hr : req.RoomName ≠ "" := fun x => he (Or.inl x)
      have hn : req.ParticipantName ≠ "" := fun x => he (Or.inr x)
      cases hs : L.ToJWT (specAccessToken h.config req) now with
      | error e =>
        exact Or.inr (Or.inr (Or.inl
          ⟨req, e, rfl, hr, hn, hs, GenerateToken_sign_error L h now c req hp hr hn e hs⟩))
      | ok t =>
        exact Or.inr (Or.inr (Or.inr
          ⟨req, t, rfl, hr, hn, hs, GenerateToken_sign_ok L h now c req hp hr hn t hs⟩))

theorem GenerateToken_handler (L : Libs) (h : RoomHandler) (now : Time) (c : Ctx) :
    (GenerateToken L h now c).handler = h := by
  rcases GenerateToken_cases L h now c with ⟨_, _, hg⟩ | ⟨_, _, _, hg⟩ | ⟨_, _, _, _, _, _, hg⟩ |
    ⟨_, _, _, _, _, _, hg⟩ <;> rw [hg]

/-! ## The server -/

theorem serve_state (L : Libs) (s : Server) (now : Time) (r : Route) (c : Ctx) :
    (serve L s now r c).2 = s := by
  cases r with
  | token => simp [serve, GenerateToken_handler]
  | rooms => simp [serve, GetRooms]
  | health => simp [serve]

theorem run_state (L : Libs) (s : Server) (reqs : List (Time × Route × Ctx)) :
    run L s reqs = s := by
  induction reqs generalizing s with
  | nil => rfl
  | cons q rest ih =>
    obtain ⟨now, r, c⟩ := q
    simp [run, serve_state, ih]

/-! ## POST /api/token: validation -/

/-- C1: `GenerateToken` answers 400 exactly when the body fails to parse or the
parsed room name or participant name is empty. A field the parser leaves at
its zero value (a field absent from the body) is rejected, and a request whose
two names are non-empty, blank names included, is not answered with 400. -/
theorem generateToken_bad_request_iff (L : Libs) (h : RoomHandler) (now : Time) (c : Ctx) :
    ((GenerateToken L h now c).response.status = 400 ↔
      ((∃ e, L.BodyParser c {} = .error e) ∨
        ∃ req, L.BodyParser c {} = .ok req ∧
          (req.RoomName = "" ∨ req.ParticipantName = ""))) ∧
    (∀ req, L.BodyParser c {} = .ok req →
      (req.RoomName = ({} : TokenRequest).RoomName ∨
        req.ParticipantName = ({} : TokenRequest).ParticipantName) →
      (GenerateToken L h now c).response.status = 400) ∧
    (∀ req, L.BodyParser c {} = .ok req → req.RoomName ≠ "" → req.ParticipantName ≠ "" →
      (GenerateToken L h now c).response.status ≠ 400) := by
  refine ⟨?_, ?_, ?_⟩
  · rcases GenerateToken_cases L h now c with ⟨e, hp, hg⟩ | ⟨req, hp, he, hg⟩ |
      ⟨req, e, hp, hr, hn, _, hg⟩ | ⟨req, t, hp, hr, hn, _, hg⟩
    · rw [hg]
      exact ⟨fun _ => Or.inl ⟨e, hp⟩, fun _ => rfl⟩
    · rw [hg]
      exact ⟨fun _ => Or.inr ⟨req, hp, he⟩, fun _ => rfl⟩
    · rw [hg]
      constructor
      · intro h4
        simp at h4
      · rintro (⟨e2, hp2⟩ | ⟨req2, hp2, he2⟩)
        · rw [hp] at hp2
          cases hp2
        · rw [hp] at hp2
          cases hp2
          rcases he2 with he2 | he2
          · exact absurd he2 hr
          · exact absurd he2 hn
    · rw [hg]
      constructor
      · intro h4
        simp at h4
      · rintro (⟨e2, hp2⟩ | ⟨req2, hp2, he2⟩)
        · rw [hp] at hp2
          cases hp2
        · rw [hp] at hp2
          cases hp2
          rcases he2 with he2 | he2
          · exact absurd he2 hr
          · exact absurd he2 hn
  · intro req hp he
    rw [GenerateToken_rejected L h now c req hp he]
  · intro req hp hr hn
    cases hs : L.ToJWT (specAccessToken h.config req) now with
    | error e =>
      rw [GenerateToken_sign_error L h now c req hp hr hn e hs]
      simp
    | ok t =>
      rw [GenerateToken_sign_ok L h now c req hp hr hn t hs]
      simp

/-- C1 at the sample bodies: the body without a participant name is answered
with 400, the body with two blank names is not. -/
theorem generateToken_bad_request_iff_witness :
    (GenerateToken sampleLibs (NewRoomHandler (Load emptyEnv)) 0
      (jsonCtx roomOnlyBody)).response.status = 400 ∧
    (GenerateToken sampleLibs (NewRoomHandler (Load emptyEnv)) 0
      (jsonCtx blankBody)).response.status ≠ 400 :=
  ⟨(generateToken_bad_request_iff sampleLibs (NewRoomHandler (Load emptyEnv)) 0
      (jsonCtx roomOnlyBody)).2.1 { RoomName := "standup" } rfl (Or.inr rfl),
   (generateToken_bad_request_iff sampleLibs (NewRoomHandler (Load emptyEnv)) 0
      (jsonCtx blankBody)).2.2 { RoomName := " ", ParticipantName := " " } rfl
      (by decide) (by decide)⟩

/-! ## POST /api/token: issuance -/

/-- C2 as stated fails: the concrete scenario parses to two non-empty names
and the configuration comes from `Load`, yet with a signer that returns an
error the answer is status 500 with an `error` body, not 200 with a token. -/
theorem generateToken_ok_counterexample :
    (failingLibs.BodyParser (jsonCtx standupBody) {} =
        .ok { RoomName := "standup", ParticipantName := "alice" } ∧
      (GenerateToken failingLibs (NewRoomHandler (Load emptyEnv)) 5
        (jsonCtx standupBody)).response =
          { status := 500, body := [("error", .string "Failed to generate token")] }) ∧
    ¬ (∀ (L : Libs) (env : Env) (now : Time) (c : Ctx) (req : TokenRequest),
      L.BodyParser c {} = .ok req → req.RoomName ≠ "" → req.ParticipantName ≠ "" →
      ∃ t, t ≠ "" ∧
        (GenerateToken L (NewRoomHandler (Load env)) now c).response =
          { status := 200, body := [("token", .string t)] }) := by
  refine ⟨⟨rfl, by decide⟩, fun hall => ?_⟩
  obtain ⟨t, _, ht⟩ := hall failingLibs emptyEnv 5 (jsonCtx standupBody)
    { RoomName := "standup", ParticipantName := "alice" } rfl (by decide) (by decide)
  have h5 : (GenerateToken failingLibs (NewRoomHandler (Load emptyEnv)) 5
      (jsonCtx standupBody)).response.status = 500 := by decide
  rw [ht] at h5
  simp at h5

/-- C2 amended: for a request that parses to two non-empty names and a
configuration produced by `Load`, the handler hands the signer a token with a
non-empty key and a non-empty secret; the answer is status 200 with the body
`token: t` exactly when the signer returns a token, `t` being the token the
signer returned, and status 500 when the signer returns an error; it is never
400. -/
theorem generateToken_ok_iff_signed (L : Libs) (env : Env) (now : Time) (c : Ctx)
    (req : TokenRequest) (hp : L.BodyParser c {} = .ok req) (hr : req.RoomName ≠ "")
    (hn : req.ParticipantName ≠ "") :
    ∃ tok,
      (GenerateToken L (NewRoomHandler (Load env)) now c).calls.filter
        (fun a => a matches .ToJWT _ _) = [.ToJWT tok now] ∧
      tok.apiKey ≠ "" ∧ tok.secret ≠ "" ∧
      (∀ t, L.ToJWT tok now = .ok t →
        (GenerateToken L (NewRoomHandler (Load env)) now c).response =
          { status := 200, body := [("token", .string t)] }) ∧
      (∀ e, L.ToJWT tok now = .error e →
        (GenerateToken L (NewRoomHandler (Load env)) now c).response.status = 500) ∧
      ((GenerateToken L (NewRoomHandler (Load env)) now c).response.status = 200 ↔
        ∃ t, L.ToJWT tok now = .ok t) ∧
      (GenerateToken L (NewRoomHandler (Load env)) now c).response.status ≠ 400 := by
  have hk : (specAccessToken (NewRoomHandler (Load env)).config req).apiKey ≠ "" :=
    getEnv_ne_empty env "LIVEKIT_API_KEY" "devkey" (by decide)
  have hs : (specAccessToken (NewRoomHandler (Load env)).config req).secret ≠ "" :=
    getEnv_ne_empty env "LIVEKIT_API_SECRET" "secret" (by decide)
  refine ⟨specAccessToken (NewRoomHandler (Load env)).config req, ?_, hk, hs, ?_, ?_, ?_, ?_⟩
  · cases hj : L.ToJWT (specAccessToken (NewRoomHandler (Load env)).config req) now with
    | error e =>
      rw [GenerateToken_sign_error L _ now c req hp hr hn e hj]
      rfl
    | ok t =>
      rw [GenerateToken_sign_ok L _ now c req hp hr hn t hj]
      rfl
  · intro t hj
    rw [GenerateToken_sign_ok L _ now c req hp hr hn t hj]
  · intro e hj
    rw [GenerateToken_sign_error L _ now c req hp hr hn e hj]
  · cases hj : L.ToJWT (specAccessToken (NewRoomHandler (Load env)).config req) now with
    | error e =>
      rw [GenerateToken_sign_error L _ now c req hp hr hn e hj]
      constructor
      · intro h2
        simp at h2
      · rintro ⟨t, ht⟩
        cases ht
    | ok t =>
      rw [GenerateToken_sign_ok L _ now c req hp hr hn t hj]
      exact ⟨fun _ => ⟨t, rfl⟩, fun _ => rfl⟩
  · cases hj : L.ToJWT (specAccessToken (NewRoomHandler (Load env)).config req) now with
    | error e =>
      rw [GenerateToken_sign_error L _ now c req hp hr hn e hj]
      simp
    | ok t =>
      rw [GenerateToken_sign_ok L _ now c req hp hr hn t hj]
      simp

/-- C2 amended, at the concrete scenario with all four variables set: the
signer is handed the configured key and secret and its token is the body. -/
theorem generateToken_ok_iff_signed_witness :
    ∃ tok,
      (GenerateToken sampleLibs (NewRoomHandler (Load fullEnv)) 5
        (jsonCtx standupBody)).calls.filter
        (fun a => a matches .ToJWT _ _) = [.ToJWT tok 5] ∧
      tok.apiKey ≠ "" ∧ tok.secret ≠ "" ∧
      (∀ t, sampleLibs.ToJWT tok 5 = .ok t →
        (GenerateToken sampleLibs (NewRoomHandler (Load fullEnv)) 5
          (jsonCtx standupBody)).response =
            { status := 200, body := [("token", .string t)] }) ∧
      (∀ e, sampleLibs.ToJWT tok 5 = .error e →
        (GenerateToken sampleLibs (NewRoomHandler (Load fullEnv)) 5
          (jsonCtx standupBody)).response.status = 500) ∧
      ((GenerateToken sampleLibs (NewRoomHandler (Load fullEnv)) 5
          (jsonCtx standupBody)).response.status = 200 ↔
        ∃ t, sampleLibs.ToJWT tok 5 = .ok t) ∧
      (GenerateToken sampleLibs (NewRoomHandler (Load fullEnv)) 5
        (jsonCtx standupBody)).response.status ≠ 400 :=
  generateToken_ok_iff_signed sampleLibs fullEnv 5 (jsonCtx standupBody)
    { RoomName := "standup", ParticipantName := "alice" } rfl (by decide) (by decide)

/-- C3: for an accepted request the handler constructs one access token from
the configured key and secret and hands the signer, at the clock reading of
the call, a token with that key and secret, the participant name as identity,
a video grant whose only set field besides the room is room join, the room
name as room, and a validity of 24 hours, which is 86400 seconds. -/
theorem generateToken_signed_token (L : Libs) (h : RoomHandler) (now : Time) (c : Ctx)
    (req : TokenRequest) (hp : L.BodyParser c {} = .ok req) (hr : req.RoomName ≠ "")
    (hn : req.ParticipantName ≠ "") :
    ∃ tok,
      (GenerateToken L h now c).calls =
        [.NewAccessToken h.config.LiveKitAPIKey h.config.LiveKitAPISecret, .ToJWT tok now] ∧
      tok.apiKey = h.config.LiveKitAPIKey ∧
      tok.secret = h.config.LiveKitAPISecret ∧
      tok.grant.Identity = req.ParticipantName ∧
      tok.grant.Video = some
        { RoomCreate := false, RoomList := false, RoomRecord := false, RoomAdmin := false
          RoomJoin := true, Room := req.RoomName
          CanPublish := none, CanSubscribe := none, CanPublishData := none
          CanPublishSources := [], CanUpdateOwnMetadata := none
          IngressAdmin := false, Hidden := false, Recorder := false } ∧
      tok.validFor = 24 * Hour ∧
      tok.validFor = 86400 * Second ∧
      tok = specAccessToken h.config req := by
  refine ⟨specAccessToken h.config req, ?_, rfl, rfl, rfl, rfl, ?_, ?_, rfl⟩
  · cases hs : L.ToJWT (specAccessToken h.config req) now with
    | error e => rw [GenerateToken_sign_error L h now c req hp hr hn e hs]
    | ok t => rw [GenerateToken_sign_ok L h now c req hp hr hn t hs]
  · show (86400 * 1000000000 : Int) = 24 * Hour
    decide
  · show (86400 * 1000000000 : Int) = 86400 * Second
    decide

/-- C3 at the concrete scenario under the default configuration. -/
theorem generateToken_signed_token_witness :
    ∃ tok,
      (GenerateToken sampleLibs (NewRoomHandler (Load emptyEnv)) 5 (jsonCtx standupBody)).calls =
        [.NewAccessToken "devkey" "secret", .ToJWT tok 5] ∧
      tok.apiKey = "devkey" ∧
      tok.secret = "secret" ∧
      tok.grant.Identity = "alice" ∧
      tok.grant.Video = some
        { RoomCreate := false, RoomList := false, RoomRecord := false, RoomAdmin := false
          RoomJoin := true, Room := "standup"
          CanPublish := none, CanSubscribe := none, CanPublishData := none
          CanPublishSources := [], CanUpdateOwnMetadata := none
          IngressAdmin := false, Hidden := false, Recorder := false } ∧
      tok.validFor = 24 * Hour ∧
      tok.validFor = 86400 * Second ∧
      tok = specAccessToken (Load emptyEnv) { RoomName := "standup", ParticipantName := "alice" } :=
  generateToken_signed_token sampleLibs (NewRoomHandler (Load emptyEnv)) 5 (jsonCtx standupBody)
    { RoomName := "standup", ParticipantName := "alice" } rfl (by decide) (by decide)

/-- C4: for an accepted request the handler calls the signer once; when that
call returns an error the answer has status 500, and when it returns a token
`t` the answer is status 200 with the body `token: t`. Every answer of
`GenerateToken` to any request that is not a 200 is a 400 or a 500 whose body
has the single key `error` with a non-empty message. -/
theorem generateToken_signer_result (L : Libs) (h : RoomHandler) (now : Time) (c : Ctx)
    (req : TokenRequest) (hp : L.BodyParser c {} = .ok req) (hr : req.RoomName ≠ "")
    (hn : req.ParticipantName ≠ "") :
    (∃ tok,
      (GenerateToken L h now c).calls.filter (fun a => a matches .ToJWT _ _) =
        [.ToJWT tok now] ∧
      (∀ e, L.ToJWT tok now = .error e → (GenerateToken L h now c).response.status = 500) ∧
      (∀ t, L.ToJWT tok now = .ok t →
        (GenerateToken L h now c).response =
          { status := 200, body := [("token", .string t)] })) ∧
    (∀ c2, (GenerateToken L h now c2).response.status ≠ 200 →
      ((GenerateToken L h now c2).response.status = 400 ∨
        (GenerateToken L h now c2).response.status = 500) ∧
      ∃ msg, msg ≠ "" ∧ (GenerateToken L h now c2).response.body = [("error", .string msg)]) := by
  constructor
  · refine ⟨specAccessToken h.config req, ?_, ?_, ?_⟩
    · cases hs : L.ToJWT (specAccessToken h.config req) now with
      | error e =>
        rw [GenerateToken_sign_error L h now c req hp hr hn e hs]
        rfl
      | ok t =>
        rw [GenerateToken_sign_ok L h now c req hp hr hn t hs]
        rfl
    · intro e hs
      rw [GenerateToken_sign_error L h now c req hp hr hn e hs]
    · intro t hs
      rw [GenerateToken_sign_ok L h now c req hp hr hn t hs]
  · intro c2 h2
    rcases GenerateToken_cases L h now c2 with ⟨_, _, hg⟩ | ⟨_, _, _, hg⟩ |
      ⟨_, _, _, _, _, _, hg⟩ | ⟨_, _, _, _, _, _, hg⟩
    · rw [hg]
      exact ⟨Or.inl rfl, _, by decide, rfl⟩
    · rw [hg]
      exact ⟨Or.inl rfl, _, by decide, rfl⟩
    · rw [hg]
      exact ⟨Or.inr rfl, _, by decide, rfl⟩
    · rw [hg] at h2
      exact absurd rfl h2

/-- C4 with a signer that fails: the concrete scenario is answered with 500
and an `error` body, and a request that does not parse with 400 and an
`error` body. -/
theorem generateToken_signer_result_witness :
    (∃ tok,
      (GenerateToken failingLibs (NewRoomHandler (Load emptyEnv)) 5
        (jsonCtx standupBody)).calls.filter (fun a => a matches .ToJWT _ _) =
          [.ToJWT tok 5] ∧
      (∀ e, failingLibs.ToJWT tok 5 = .error e →
        (GenerateToken failingLibs (NewRoomHandler (Load emptyEnv)) 5
          (jsonCtx standupBody)).response.status = 500) ∧
      (∀ t, failingLibs.ToJWT tok 5 = .ok t →
        (GenerateToken failingLibs (NewRoomHandler (Load emptyEnv)) 5
          (jsonCtx standupBody)).response =
            { status := 200, body := [("token", .string t)] })) ∧
    (∀ c2, (GenerateToken failingLibs (NewRoomHandler (Load emptyEnv)) 5 c2).response.status
        ≠ 200 →
      ((GenerateToken failingLibs (NewRoomHandler (Load emptyEnv)) 5 c2).response.status = 400 ∨
        (GenerateToken failingLibs (NewRoomHandler (Load emptyEnv)) 5 c2).response.status = 500) ∧
      ∃ msg, msg ≠ "" ∧
        (GenerateToken failingLibs (NewRoomHandler (Load emptyEnv)) 5 c2).response.body =
          [("error", .string msg)]) :=
  generateToken_signer_result failingLibs (NewRoomHandler (Load emptyEnv)) 5 (jsonCtx standupBody)
    { RoomName := "standup", ParticipantName := "alice" } rfl (by decide) (by decide)

/-- C6: whenever `GenerateToken` makes a call into the `auth` package, the
request parsed to a non-empty room name and a non-empty participant name; and
whenever it answers 400 it made no such call. -/
theorem generateToken_issuer_precondition (L : Libs) (h : RoomHandler) (now : Time) (c : Ctx) :
    ((GenerateToken L h now c).calls ≠ [] →
      ∃ req, L.BodyParser c {} = .ok req ∧ req.RoomName ≠ "" ∧ req.ParticipantName ≠ "") ∧
    ((GenerateToken L h now c).response.status = 400 → (GenerateToken L h now c).calls = []) := by
  rcases GenerateToken_cases L h now c with ⟨e, hp, hg⟩ | ⟨req, hp, he, hg⟩ |
    ⟨req, e, hp, hr, hn, _, hg⟩ | ⟨req, t, hp, hr, hn, _, hg⟩
  · rw [hg]
    exact ⟨fun hc => absurd rfl hc, fun _ => rfl⟩
  · rw [hg]
    exact ⟨fun hc => absurd rfl hc, fun _ => rfl⟩
  · rw [hg]
    refine ⟨fun _ => ⟨req, hp, hr, hn⟩, fun h4 => ?_⟩
    simp at h4
  · rw [hg]
    refine ⟨fun _ => ⟨req, hp, hr, hn⟩, fun h4 => ?_⟩
    simp at h4

/-- C6 at the sample bodies: the concrete scenario reaches the signer with
two non-empty names, the body without a participant name reaches nothing. -/
theorem generateToken_issuer_precondition_witness :
    (∃ req, sampleLibs.BodyParser (jsonCtx standupBody) {} = .ok req ∧
      req.RoomName ≠ "" ∧ req.ParticipantName ≠ "") ∧
    (GenerateToken sampleLibs (NewRoomHandler (Load emptyEnv)) 5 (jsonCtx roomOnlyBody)).calls
      = [] :=
  ⟨(generateToken_issuer_precondition sampleLibs (NewRoomHandler (Load emptyEnv)) 5
      (jsonCtx standupBody)).1 (by decide),
   (generateToken_issuer_precondition sampleLibs (NewRoomHandler (Load emptyEnv)) 5
      (jsonCtx roomOnlyBody)).2 (by decide)⟩

/-! ## Statelessness -/

/-- C8 as stated fails: two requests with the same body, the same handler and
the same clock reading, one sent as `application/json` and one as
`text/plain`, are answered with 200 and with 400. -/
theorem generateToken_same_body_counterexample :
    ((jsonCtx standupBody).body = (Ctx.mk "text/plain" standupBody).body ∧
      (GenerateToken sampleLibs (NewRoomHandler (Load emptyEnv)) 5
        (jsonCtx standupBody)).response.status = 200 ∧
      (GenerateToken sampleLibs (NewRoomHandler (Load emptyEnv)) 5
        (Ctx.mk "text/plain" standupBody)).response.status = 400) ∧
    ¬ (∀ (L : Libs) (h : RoomHandler) (now : Time) (c1 c2 : Ctx), c1.body = c2.body →
      (GenerateToken L h now c1).response = (GenerateToken L h now c2).response) := by
  refine ⟨⟨rfl, by decide, by decide⟩, fun hall => ?_⟩
  have hbad := hall sampleLibs (NewRoomHandler (Load emptyEnv)) 5 (jsonCtx standupBody)
    (Ctx.mk "text/plain" standupBody) rfl
  revert hbad
  decide

/-- C8 amended: `GenerateToken` leaves the `Config` of the handler unchanged,
also after any further requests; two requests with the same body and the same
content type, made at the same clock reading before and after any sequence of
requests, get the same response; and the response depends on the request only
through what the body parser returns for it and on the `Config` only through
the key and the secret. -/
theorem generateToken_same_request (L : Libs) (s : Server)
    (between : List (Time × Route × Ctx)) (now : Time) (c1 c2 : Ctx)
    (hb : c1.body = c2.body) (ht : c1.contentType = c2.contentType) :
    (GenerateToken L s.roomHandler now c1).handler.config = s.roomHandler.config ∧
    (run L (serve L s now .token c1).2 between).roomHandler.config = s.roomHandler.config ∧
    (serve L (run L (serve L s now .token c1).2 between) now .token c2).1 =
      (serve L s now .token c1).1 ∧
    (∀ (h1 h2 : RoomHandler) (d1 d2 : Ctx),
      h1.config.LiveKitAPIKey = h2.config.LiveKitAPIKey →
      h1.config.LiveKitAPISecret = h2.config.LiveKitAPISecret →
      (L.BodyParser d1 {}).toOption = (L.BodyParser d2 {}).toOption →
      (GenerateToken L h1 now d1).response = (GenerateToken L h2 now d2).response) := by
  have hc : c1 = c2 := by
    cases c1
    cases c2
    simp_all
  refine ⟨?_, ?_, ?_, ?_⟩
  · rw [GenerateToken_handler]
  · rw [serve_state, run_state]
  · rw [serve_state, run_state, hc]
  · intro h1 h2 d1 d2 hk hs hpe
    have hspec : ∀ req, specAccessToken h1.config req = specAccessToken h2.config req := by
      intro req
      simp [specAccessToken, hk, hs]
    cases p1 : L.BodyParser d1 {} with
    | error e1 =>
      cases p2 : L.BodyParser d2 {} with
      | error e2 =>
        rw [GenerateToken_parse_error L h1 now d1 e1 p1,
          GenerateToken_parse_error L h2 now d2 e2 p2]
      | ok r2 =>
        rw [p1, p2] at hpe
        simp [Except.toOption] at hpe
    | ok r1 =>
      cases p2 : L.BodyParser d2 {} with
      | error e2 =>
        rw [p1, p2] at hpe
        simp [Except.toOption] at hpe
      | ok r2 =>
        rw [p1, p2] at hpe
        simp only [Except.toOption, Option.some.injEq] at hpe
        subst hpe
        by_cases he : r1.RoomName = "" ∨ r1.ParticipantName = ""
        · rw [GenerateToken_rejected L h1 now d1 r1 p1 he,
            GenerateToken_rejected L h2 now d2 r1 p2 he]
        · have hr : r1.RoomName ≠ "" := fun x => he (Or.inl x)
          have hn : r1.ParticipantName ≠ "" := fun x => he (Or.inr x)
          cases hj : L.ToJWT (specAccessToken h1.config r1) now with
          | error e =>
            rw [GenerateToken_sign_error L h1 now d1 r1 p1 hr hn e hj,
              GenerateToken_sign_error L h2 now d2 r1 p2 hr hn e (by rw [← hspec]; exact hj)]
          | ok t =>
            rw [GenerateToken_sign_ok L h1 now d1 r1 p1 hr hn t hj,
              GenerateToken_sign_ok L h2 now d2 r1 p2 hr hn t (by rw [← hspec]; exact hj)]

/-- C8 amended, on a concrete history: a rooms request, a rejected token
request and a health request between two equal token requests. -/
theorem generateToken_same_request_witness :
    (serve sampleLibs
      (run sampleLibs (serve sampleLibs (Server.start fullEnv) 5 .token (jsonCtx standupBody)).2
        [(6, .rooms, jsonCtx ""), (7, .token, jsonCtx roomOnlyBody), (8, .health, jsonCtx "")])
      5 .token (Ctx.mk "application/json" standupBody)).1 =
    { status := 200, body := [("token", .string "jwt.APIabc.alice")] } :=
  ((generateToken_same_request sampleLibs (Server.start fullEnv)
    [(6, .rooms, jsonCtx ""), (7, .token, jsonCtx roomOnlyBody), (8, .health, jsonCtx "")]
    5 (jsonCtx standupBody) (Ctx.mk "application/json" standupBody) rfl rfl).2.2.1).trans
      (by decide)

/-! ## GET /api/rooms and GET /health -/

/-- C7: the handler registered for `GET /api/rooms` is `GetRooms`; it answers
every request, under every handler value, with status 200 and the body
`rooms: []`, an empty array and not `null`, and so does the server after any
sequence of earlier requests. -/
theorem getRooms_empty_list (L : Libs) (s : Server) (earlier : List (Time × Route × Ctx))
    (h : RoomHandler) (now : Time) (c : Ctx) :
    registered .GET "/api/rooms" = some .rooms ∧
    (GetRooms h c).response = { status := 200, body := [("rooms", .strings [])] } ∧
    JValue.strings [] ≠ JValue.null ∧
    (serve L (run L s earlier) now .rooms c).1 =
      { status := 200, body := [("rooms", .strings [])] } :=
  ⟨by decide, rfl, by decide, rfl⟩

/-- C9: the handler registered for `GET /health` answers every request with
status 200 and the body `status: ok`, whatever the server state and the
earlier requests. -/
theorem health_ok (L : Libs) (s : Server) (earlier : List (Time × Route × Ctx))
    (now : Time) (c : Ctx) :
    registered .GET "/health" = some .health ∧
    healthHandler c = { status := 200, body := [("status", .string "ok")] } ∧
    (serve L (run L s earlier) now .health c).1 =
      { status := 200, body := [("status", .string "ok")] } :=
  ⟨by decide, rfl, rfl⟩

/-! ## Configuration -/

/-- C5 as stated fails: with `LIVEKIT_HOST` present and set to the empty
string, the host field is the default and not the value of the variable. -/
theorem Load_present_empty_counterexample :
    (emptyHostEnv "LIVEKIT_HOST" = some "" ∧
      (Load emptyHostEnv).LiveKitHost = "ws://localhost:7880") ∧
    ¬ (∀ (env : Env) (v : String), env "LIVEKIT_HOST" = some v → (Load env).LiveKitHost = v) := by
  refine ⟨⟨rfl, by decide⟩, fun hall => ?_⟩
  have hbad := hall emptyHostEnv "" rfl
  revert hbad
  decide

/-- C5 amended: `Load` is total, and each field of the `Config` equals the
value of its variable when the variable is present with a non-empty value, and
its fixed default when the variable is absent or empty; with no variable set
`Load` returns exactly the four defaults. -/
theorem Load_fields (env : Env) :
    (Load env).LiveKitHost =
      (match env "LIVEKIT_HOST" with
        | some v => if v = "" then "ws://localhost:7880" else v
        | none => "ws://localhost:7880") ∧
    (Load env).LiveKitAPIKey =
      (match env "LIVEKIT_API_KEY" with
        | some v => if v = "" then "devkey" else v
        | none => "devkey") ∧
    (Load env).LiveKitAPISecret =
      (match env "LIVEKIT_API_SECRET" with
        | some v => if v = "" then "secret" else v
        | none => "secret") ∧
    (Load env).Port =
      (match env "PORT" with
        | some v => if v = "" then "8080" else v
        | none => "8080") ∧
    Load (fun _ => none) =
      { LiveKitHost := "ws://localhost:7880", LiveKitAPIKey := "devkey"
        LiveKitAPISecret := "secret", Port := "8080" } :=
  ⟨getEnv_eq env _ _, getEnv_eq env _ _, getEnv_eq env _ _, getEnv_eq env _ _, by decide⟩

/-- C10: every field of the `Config` returned by `Load` is non-empty;
`getEnv` returns the value of the variable when that value is non-empty and
the default when the variable is set to the empty string or absent; and every
call a handler built from `Load` makes into the `auth` package carries a
non-empty key and a non-empty secret. -/
theorem Load_fields_nonempty (env : Env) :
    ((Load env).LiveKitHost ≠ "" ∧ (Load env).LiveKitAPIKey ≠ "" ∧
      (Load env).LiveKitAPISecret ≠ "" ∧ (Load env).Port ≠ "") ∧
    (∀ key d v, env key = some v → v ≠ "" → getEnv env key d = v) ∧
    (∀ key d, env key = some "" → getEnv env key d = d) ∧
    (∀ key d, env key = none → getEnv env key d = d) ∧
    (∀ (L : Libs) (now : Time) (c : Ctx) (call : AuthCall),
      call ∈ (GenerateToken L (NewRoomHandler (Load env)) now c).calls →
      match call with
      | .NewAccessToken key secret => key ≠ "" ∧ secret ≠ ""
      | .ToJWT tok _ => tok.apiKey ≠ "" ∧ tok.secret ≠ "") := by
  have hk : (Load env).LiveKitAPIKey ≠ "" :=
    getEnv_ne_empty env "LIVEKIT_API_KEY" "devkey" (by decide)
  have hs : (Load env).LiveKitAPISecret ≠ "" :=
    getEnv_ne_empty env "LIVEKIT_API_SECRET" "secret" (by decide)
  refine ⟨⟨getEnv_ne_empty env _ _ (by decide), hk, hs, getEnv_ne_empty env _ _ (by decide)⟩,
    ?_, ?_, ?_, ?_⟩
  · intro key d v hv hne
    rw [getEnv_eq, hv]
    simp [hne]
  · intro key d hv
    rw [getEnv_eq, hv]
    simp
  · intro key d hv
    rw [getEnv_eq, hv]
  · intro L now c call hmem
    rcases GenerateToken_cases L (NewRoomHandler (Load env)) now c with ⟨_, _, hg⟩ |
      ⟨_, _, _, hg⟩ | ⟨req, _, _, _, _, _, hg⟩ | ⟨req, _, _, _, _, _, hg⟩
    · rw [hg] at hmem
      simp at hmem
    · rw [hg] at hmem
      simp at hmem
    · rw [hg] at hmem
      simp only [List.mem_cons, List.mem_singleton, List.not_mem_nil, or_false] at hmem
      rcases hmem with rfl | rfl
      · exact ⟨hk, hs⟩
      · exact ⟨hk, hs⟩
    · rw [hg] at hmem
      simp only [List.mem_cons, List.mem_singleton, List.not_mem_nil, or_false] at hmem
      rcases hmem with rfl | rfl
      · exact ⟨hk, hs⟩
      · exact ⟨hk, hs⟩

/-- C10 with `LIVEKIT_HOST` set to the empty string: the host is still
non-empty, `getEnv` yields the default, and the signer of the concrete
scenario receives the default key and secret. -/
theorem Load_fields_nonempty_witness :
    (Load emptyHostEnv).LiveKitHost ≠ "" ∧
    getEnv emptyHostEnv "LIVEKIT_HOST" "ws://localhost:7880" = "ws://localhost:7880" ∧
    getEnv fullEnv "PORT" "8080" = "9000" ∧
    ("devkey" ≠ "" ∧ "secret" ≠ "") :=
  ⟨(Load_fields_nonempty emptyHostEnv).1.1,
   (Load_fields_nonempty emptyHostEnv).2.2.1 "LIVEKIT_HOST" "ws://localhost:7880" rfl,
   (Load_fields_nonempty fullEnv).2.1 "PORT" "8080" "9000" rfl (by decide),
   (Load_fields_nonempty emptyEnv).2.2.2.2 sampleLibs 5 (jsonCtx standupBody)
     (.NewAccessToken "devkey" "secret") (by decide)⟩

end VideoCall
